import Mathlib

/-!
Verification of the VPN simulation program `src/vpn2.cc` (an ns-3 script)
against its natural-language specification.

The program's own code under `src/` consists of two C++ classes, `Encrypt`
and `Decrypt`, and a `main` function that builds a fixed topology
(two CSMA LANs joined through routers r0–r1–r2 by two point-to-point links),
assigns IPv4 addresses, installs a UDP echo server on n0 (port 9) and a UDP
echo client on n5, runs the simulation, and returns 0.

We embed the classes as explicit state machines over `Nat` with arithmetic
taken modulo 2^16 (the fields are `u_int16_t`), and `main`'s configured
scenario as concrete data.  Parts of the behaviour that live in the ns-3
library rather than in `src/` (link delivery, address assignment, the echo
applications) are modelled from the specification, each such definition
marked `Modelled from the spec:` in its doc comment.
-/

/-- Modulus of the `u_int16_t` fields used by `Encrypt` and `Decrypt`
(`key`, `securePayload`, `data`) in `src/vpn2.cc`. -/
def U16 : Nat := 65536

/-- The `Encrypt` class of `src/vpn2.cc` (lines 71–98): a header type whose
state consists of the member `key` (initialised to 123 and never written)
and the member `securePayload`.  `securePayload` has no initialiser in the
source (indeterminate until the first `EncryptData` call); we model the
freshly constructed object with 0 there, and no theorem below depends on
that choice since `EncryptData` overwrites the field. -/
structure Encrypt where
  key : Nat
  securePayload : Nat
deriving DecidableEq

/-- A freshly constructed `Encrypt` object: `key = 123` by member
initialisation (line 79), `securePayload` indeterminate (modelled as 0). -/
def Encrypt.init : Encrypt := ⟨123, 0⟩

/-- `Encrypt::EncryptData` (lines 96–98): `securePayload = data + key;`
where `key` is the function parameter (it shadows the member), both
parameters being `uint16_t`, so the sum is stored modulo 2^16.  No other
member is written. -/
def EncryptData (s : Encrypt) (data key : Nat) : Encrypt :=
  { s with securePayload := (data % U16 + key % U16) % U16 }

/-- The `Decrypt` class of `src/vpn2.cc` (lines 100–125): its state is the
member `key` (initialised to 123 and never written) and the member `data`
(never written by any method in the source). -/
structure Decrypt where
  key : Nat
  data : Nat
deriving DecidableEq

/-- A freshly constructed `Decrypt` object: `key = 123` by member
initialisation (line 107), `data` indeterminate (modelled as 0). -/
def Decrypt.init : Decrypt := ⟨123, 0⟩

/-- `Decrypt::DecryptData`: the declaration (line 104) takes the
`securePayload` argument and the definition (lines 123–125) is a `const`
method whose whole body is `return securePayload - key;`.  We reconcile the
two by letting the method take the secure payload as its argument.
Subtraction of `uint16_t` values wraps modulo 2^16.  The method is `const`
and its body contains no assignment, so the object state is returned
unchanged: the result is the pair (returned value, state after the call). -/
def DecryptData (s : Decrypt) (securePayload : Nat) : Nat × Decrypt :=
  ((securePayload % U16 + U16 - s.key % U16) % U16, s)

/-- Element-wise round trip of the additive transform, for reasoning about
whole payloads: `DecryptData` after `EncryptData` with encryption key `k`
against a `Decrypt` state whose member key is 123. -/
theorem roundTrip_elem (d k : Nat) (s : Decrypt) (hd : d < U16)
    (hs : s.key = 123) (hk : k % U16 = 123) :
    (DecryptData s (EncryptData Encrypt.init d k).securePayload).1 = d := by
  simp only [DecryptData, EncryptData, Encrypt.init, hs, hk, U16] at *
  omega

/-- C2: For every payload value `d` (a `uint16_t`, hence `d < 2^16`) and
every encryption key sharing the inbound side's key material (the inbound
`Decrypt` object's member key is 123, so sharing means `k ≡ 123 mod 2^16`),
decrypting the encryption of `d` returns exactly `d`.  The source has no
sequence numbers, so "presented in sequence order" imposes nothing:
`DecryptData` returns the payload unconditionally. -/
theorem C2_encrypt_decrypt_round_trip (d k : Nat) (s : Decrypt)
    (hd : d < U16) (hs : s.key = 123) (hk : k % U16 = 123) :
    (DecryptData s (EncryptData Encrypt.init d k).securePayload).1 = d :=
  roundTrip_elem d k s hd hs hk

/-- Witness for C2 at payload 1000 and key 123. -/
theorem C2_round_trip_witness :
    1000 < U16 ∧ Decrypt.init.key = 123 ∧ 123 % U16 = 123 ∧
    (DecryptData Decrypt.init
      (EncryptData Encrypt.init 1000 123).securePayload).1 = 1000 :=
  ⟨by decide, by decide, by decide,
   C2_encrypt_decrypt_round_trip 1000 123 Decrypt.init
     (by decide) (by decide) (by decide)⟩

/-- C9: decryption always subtracts the fixed member key 123, whatever key
was supplied to encryption: for every 16-bit data value `d` and every key
`k`, the round trip returns `d` iff `k ≡ 123 (mod 2^16)`. -/
theorem C9_round_trip_iff_key_123 (d k : Nat) (hd : d < U16) :
    (DecryptData Decrypt.init
      (EncryptData Encrypt.init d k).securePayload).1 = d ↔
    k % U16 = 123 := by
  simp only [DecryptData, EncryptData, Encrypt.init, Decrypt.init, U16] at *
  omega

/-- Witness for C9 at data 7 and the mismatched key 124. -/
theorem C9_round_trip_iff_key_123_witness :
    7 < U16 ∧
    ((DecryptData Decrypt.init
        (EncryptData Encrypt.init 7 124).securePayload).1 = 7 ↔
      124 % U16 = 123) :=
  ⟨by decide, C9_round_trip_iff_key_123 7 124 (by decide)⟩

/-- C10: `Decrypt::DecryptData` is a `const`, state-preserving operation:
it modifies no field of the `Decrypt` object, and calling it twice in
succession on the same secure payload returns the same value both times —
the class keeps no record of previously accepted sequence numbers, so a
second decapsulation of the same wrapper succeeds with the same payload. -/
theorem C10_DecryptData_state_preserving (s : Decrypt) (sp : Nat) :
    (DecryptData s sp).2 = s ∧
    (DecryptData (DecryptData s sp).2 sp).1 = (DecryptData s sp).1 ∧
    (DecryptData (DecryptData s sp).2 sp).2 = s := by
  simp [DecryptData]

/-- Counterexample to C3 as stated: take the wrapper produced by encrypting
payload 5 under key 123 (`securePayload = 128`).  Presenting it to
`DecryptData` a second time — from the exact state left by the first,
accepting call — does not fail: there is no `ReplayError` in the code, and
the second call returns the payload 5 again. -/
theorem C3_counterexample_second_decrypt_succeeds :
    (DecryptData
        (DecryptData Decrypt.init
          (EncryptData Encrypt.init 5 123).securePayload).2
        (EncryptData Encrypt.init 5 123).securePayload).1 = 5 ∧
    (DecryptData Decrypt.init
        (EncryptData Encrypt.init 5 123).securePayload).1 = 5 := by
  constructor <;> decide

/-- C3 amended: presenting the same wrapper to `DecryptData` a second time
does not fail — it succeeds and returns the same payload as the first
presentation, because the method is `const`, performs no sequence-number
check, and keeps no record of previously accepted wrappers. -/
theorem C3_second_decrypt_returns_same_payload (s : Decrypt) (sp : Nat) :
    (DecryptData (DecryptData s sp).2 sp).1 = (DecryptData s sp).1 := by
  simp [DecryptData]

/-- Counterexample to C4 as stated: encapsulating payload 5 under key 123
twice in a row leaves the `Encrypt` wrapper state bit-for-bit identical
after the first and the second call.  No field of the wrapper strictly
increases from one encapsulation to the next, so whatever value one reads
off the wrapper as its "sequence number" is reused verbatim. -/
theorem C4_counterexample_no_sequence_counter :
    EncryptData (EncryptData Encrypt.init 5 123) 5 123 =
      EncryptData Encrypt.init 5 123 := by
  decide

/-- C4 amended: `Encrypt` maintains no sequence counter at all.  Its whole
state is the fixed `key` member and the `securePayload` member, the latter
determined solely by the current call's data and key; hence encapsulating
the same datagram under the same key any number of times reproduces one and
the same wrapper state, and the key member never changes. -/
theorem C4_encrypt_state_determined_by_call (s : Encrypt) (d k : Nat) :
    EncryptData (EncryptData s d k) d k = EncryptData s d k ∧
    (EncryptData s d k).key = s.key := by
  simp [EncryptData]

/-- `main` (src/vpn2.cc line 261): the single `return` statement of the
program, reached unconditionally, returns 0. -/
def mainExitStatus : Nat := 0

/-- `main` (src/vpn2.cc lines 127–262) contains no validity check and no
early-return or abort branch: the address ranges, SA presence and
destination reachability are never tested, so no setup failure is ever
detected in any run. -/
def setupFailureDetected : Bool := false

/-- C5: the exit status is non-zero exactly when a setup failure is
detected before simulated time advances, and a run without a detected setup
failure exits with status zero.  In this program both sides are vacuous:
`main` detects nothing and unconditionally returns 0. -/
theorem C5_exit_status :
    mainExitStatus = 0 ∧ ((mainExitStatus ≠ 0) ↔ setupFailureDetected = true) := by
  decide

/-- Modelled from the spec: the payload bytes observed by a passive
observer on the transit path (the point-to-point links r0–r1 and r1–r2),
as a function of the application payload.  Link delivery itself lives in
the ns-3 library (spec §4.4: lossless, order-preserving delivery of the
transmitted bytes); what `src/vpn2.cc` contributes is the data path
`main` installs, and `main` (lines 127–262) installs only the plain UDP
echo applications and static global routing — it never instantiates
`Encrypt` or `Decrypt` and puts no transform of any kind on the path, so
the bytes crossing the transit links are exactly the application payload. -/
def transitLinkPayload (p : List Nat) : List Nat := p

/-- The one datagram payload of the configured run, as a byte list: `main`
sets `PacketSize` to 1024 (line 238/245). -/
def configuredPayload : List Nat := List.replicate 1024 79

/-- C1 evaluated at the failing input, the run's single datagram: the bytes
on the transit link equal the plaintext payload — they do not differ from
the original payload bytes, contradicting the confidentiality claim (the
`Encrypt`/`Decrypt` classes are dead code, never invoked by `main`). -/
theorem C1_transit_bytes_equal_plaintext :
    transitLinkPayload configuredPayload = configuredPayload := rfl

/-- Modelled from the spec: per-packet serialization delay (§4.4), the time
to clock `size` bytes onto a link of bit rate `bw`; the ns-3 link code that
computes it is not part of `src/`.  Sizes in bytes, bandwidth in bits per
second, times in seconds. -/
def serializationDelay (size bw : ℚ) : ℚ := 8 * size / bw

/-- Modelled from the spec: delivery time of a packet over a link (§4.4),
`enqueue_time + serialization_delay(packet_size, bandwidth) +
propagation_delay`. -/
def deliveryTime (enq size bw prop : ℚ) : ℚ :=
  enq + serializationDelay size bw + prop

/-- C7: delivery time follows the enqueue + serialization + propagation
formula with the serialization delay computed per packet from its size, so
on any link of positive bandwidth a strictly larger payload takes strictly
longer to fully deliver than a smaller one at the same bandwidth and
propagation delay. -/
theorem C7_delivery_time_formula (enq prop bw s1 s2 : ℚ)
    (hbw : 0 < bw) (hs : s1 < s2) :
    deliveryTime enq s1 bw prop = enq + serializationDelay s1 bw + prop ∧
    deliveryTime enq s1 bw prop < deliveryTime enq s2 bw prop := by
  refine ⟨rfl, ?_⟩
  unfold deliveryTime serializationDelay
  have h8 : (8 : ℚ) * s1 < 8 * s2 := by linarith
  have h2 : 8 * s1 / bw < 8 * s2 / bw := by
    rw [div_lt_div_iff₀ hbw hbw]
    exact mul_lt_mul_of_pos_right h8 hbw
  linarith

/-- Witness for C7 on the transit link `main` configures (30 Mbps,
2 ms propagation delay, src lines 166–167) comparing a 64-byte and a
2048-byte payload enqueued at t = 2 s. -/
theorem C7_delivery_time_formula_witness :
    (0 : ℚ) < 30000000 ∧ (64 : ℚ) < 2048 ∧
    deliveryTime 2 64 30000000 (1 / 500) <
      deliveryTime 2 2048 30000000 (1 / 500) :=
  ⟨by norm_num, by norm_num,
   (C7_delivery_time_formula 2 (1 / 500) 30000000 64 2048
     (by norm_num) (by norm_num)).2⟩

/-- Modelled from the spec: the producer contract (§4.6) — given a packet
count, a start time, an inter-packet interval and a stop time, the producer
schedules `count` send actions spaced by `interval`, none once the stop
time has passed.  The ns-3 `UdpEchoClient` implementing this is not part of
`src/`; the parameter values are taken from `main` (src lines 238–248). -/
def sendTimes (count : Nat) (start interval stop : ℚ) : List ℚ :=
  ((List.range count).map (fun i => start + (i : ℚ) * interval)).filter
    (fun t => decide (t ≤ stop))

/-- Modelled from the spec: gateway encapsulation of a whole payload
(§4.5), the configured transform — the source's additive `EncryptData`
applied element-wise — under outbound key material `k`. -/
def encapPayload (k : Nat) (p : List Nat) : List Nat :=
  p.map (fun b => (EncryptData Encrypt.init b k).securePayload)

/-- Modelled from the spec: gateway decapsulation of a whole payload
(§4.5), the source's `DecryptData` applied element-wise by a freshly
constructed inbound `Decrypt` object (member key 123). -/
def decapPayload (p : List Nat) : List Nat :=
  p.map (fun sp => (DecryptData Decrypt.init sp).1)

/-- Decapsulation inverts encapsulation under the matching key 123,
element-wise over a payload of 16-bit values. -/
theorem decapPayload_encapPayload (p : List Nat) (hp : ∀ b ∈ p, b < U16) :
    decapPayload (encapPayload 123 p) = p := by
  induction p with
  | nil => rfl
  | cons a t ih =>
    have ha : a < U16 := hp a (List.mem_cons_self a t)
    have ht : ∀ b ∈ t, b < U16 := fun b hb => hp b (List.mem_cons_of_mem a hb)
    have h1 : (DecryptData Decrypt.init
        (EncryptData Encrypt.init a 123).securePayload).1 = a :=
      roundTrip_elem a 123 Decrypt.init ha rfl (by decide)
    calc decapPayload (encapPayload 123 (a :: t))
        = (DecryptData Decrypt.init
            (EncryptData Encrypt.init a 123).securePayload).1
            :: decapPayload (encapPayload 123 t) := rfl
      _ = a :: t := by rw [h1, ih ht]

/-- Modelled from the spec: the consumer-side deliveries of the end-to-end
scenario (§8, §4.6) — one delivery per scheduled send, each payload having
crossed the encapsulate/decapsulate tunnel boundary.  The scenario
parameters are `main`'s: `MaxPackets` 1, `Interval` 1 s, client start
t = 2.0 s, stop t = 10.0 s, `PacketSize` 1024, server port 9
(src lines 227–248). -/
def consumerDeliveries (payload : List Nat) : List (List Nat) :=
  (sendTimes 1 2 1 10).map (fun _ => decapPayload (encapPayload 123 payload))

/-- C6: in the configured end-to-end scenario (one 1024-byte payload sent
at t = 2.0 s to the port-9 server), the receiving consumer callback fires
exactly once, with the original payload bytes. -/
theorem C6_consumer_fires_once (payload : List Nat)
    (hlen : payload.length = 1024) (hp : ∀ b ∈ payload, b < U16) :
    consumerDeliveries payload = [payload] := by
  have hs : sendTimes 1 2 1 10 = [2] := by
    unfold sendTimes
    norm_num [List.range_succ, List.filter]
  unfold consumerDeliveries
  rw [hs, List.map_singleton, decapPayload_encapPayload payload hp]

/-- Witness for C6 at the concrete 1024-byte payload of the run. -/
theorem C6_consumer_fires_once_witness :
    configuredPayload.length = 1024 ∧ (∀ b ∈ configuredPayload, b < U16) ∧
    consumerDeliveries configuredPayload = [configuredPayload] := by
  have hp : ∀ b ∈ configuredPayload, b < U16 := by
    intro b hb
    simp only [configuredPayload] at hb
    rw [List.eq_of_mem_replicate hb]
    decide
  have hlen : configuredPayload.length = 1024 := by
    rw [show configuredPayload = List.replicate 1024 79 from rfl,
      List.length_replicate]
  exact ⟨hlen, hp, C6_consumer_fires_once configuredPayload hlen hp⟩

/-- An IPv4 address written from its four dotted-quad components, as a
32-bit number. -/
def ipv4 (a b c d : Nat) : Nat := ((a * 256 + b) * 256 + c) * 256 + d

/-- Modelled from the spec: address assignment on one link's subnet (§4.2)
— a per-subnet counter starts at the subnet base and is incremented once
per interface, so the i-th interface of the link receives `base + (i+1)`.
The `Ipv4AddressHelper` performing this in `main` (src lines 189–205) is
ns-3 library code; the source documents the resulting addresses at
lines 210–225. -/
def assignSubnet (base n : Nat) : List Nat :=
  (List.range n).map (fun i => base + (i + 1))

/-- The subnet part of an address under the `/24` mask `255.255.255.0`
that `main` uses for all four subnets (src lines 193–204): the upper three
octets. -/
def subnetPart (a : Nat) : Nat := a / 256

/-- The per-interface host offset of an address under the `/24` mask: the
low octet. -/
def hostOffset (a : Nat) : Nat := a % 256

/-- C8: in the configured topology, for each of the four links (the two
4-interface CSMA LANs and the two 2-interface point-to-point links) every
interface on the link receives an address with the link's own subnet part
— 10.1.1, 10.1.2, 10.1.100, 10.1.200 respectively — and the host offsets
within each subnet are pairwise distinct. -/
theorem C8_address_assignment :
    ((assignSubnet (ipv4 10 1 1 0) 4).map subnetPart =
        List.replicate 4 (subnetPart (ipv4 10 1 1 0)) ∧
      ((assignSubnet (ipv4 10 1 1 0) 4).map hostOffset).Nodup) ∧
    ((assignSubnet (ipv4 10 1 2 0) 4).map subnetPart =
        List.replicate 4 (subnetPart (ipv4 10 1 2 0)) ∧
      ((assignSubnet (ipv4 10 1 2 0) 4).map hostOffset).Nodup) ∧
    ((assignSubnet (ipv4 10 1 100 0) 2).map subnetPart =
        List.replicate 2 (subnetPart (ipv4 10 1 100 0)) ∧
      ((assignSubnet (ipv4 10 1 100 0) 2).map hostOffset).Nodup) ∧
    ((assignSubnet (ipv4 10 1 200 0) 2).map subnetPart =
        List.replicate 2 (subnetPart (ipv4 10 1 200 0)) ∧
      ((assignSubnet (ipv4 10 1 200 0) 2).map hostOffset).Nodup) := by
  decide
